import Mathlib

/-!
Verification of the access-control core of the `distracted` browser extension.

The development shallowly embeds the pure logic of `src/lib/storage.ts`
(URL pattern matching) and `src/lib/blocker/dnr.ts` (the DNR rule-table
backend and the unlock/relock state machine).  Strings are handled as
`List Char`; the browser environment (session storage, the alarms API,
dynamic DNR rules, open tabs, the clock) is modelled as an explicit record
`SysState` threaded through the operations, so that every `await browser.*`
call of the source becomes a pure state update.
-/

/-! ## Character and list-of-character primitives (ASCII model of the JS string operations) -/

/-- ASCII model of `String.prototype.toLowerCase` on a single character. -/
def toLowerC (c : Char) : Char :=
  if 'A' ≤ c && c ≤ 'Z' then Char.ofNat (c.toNat + 32) else c

/-- Lowercase a character list. -/
def lowerL (l : List Char) : List Char := l.map toLowerC

/-- Whitespace recognised by `String.prototype.trim` (ASCII fragment). -/
def isWsC (c : Char) : Bool :=
  c == ' ' || c == '\t' || c == '\n' || c == '\r' || c == '\x0b' || c == '\x0c'

/-- Model of `String.prototype.trim`. -/
def trimL (l : List Char) : List Char :=
  ((l.dropWhile isWsC).reverse.dropWhile isWsC).reverse

/-- Model of `String.prototype.endsWith` on character lists. -/
def endsWithL (l s : List Char) : Bool :=
  List.isPrefixOf s.reverse l.reverse

/-- Model of `String.prototype.split` with a one-character separator:
`splitChar c l` returns the (always nonempty) list of chunks of `l`
between occurrences of `c`, exactly as JS `split` does. -/
def splitChar (c : Char) : List Char → List (List Char)
  | [] => [[]]
  | d :: rest =>
    match splitChar c rest with
    | [] => [[]]
    | h :: t => if d == c then [] :: h :: t else (d :: h) :: t

/-- Model of `Array.prototype.join` with a one-character separator. -/
def joinChar (c : Char) : List (List Char) → List Char
  | [] => []
  | [x] => x
  | x :: y :: rest => x ++ c :: joinChar c (y :: rest)

/-- Split a list at the first occurrence of the (nonempty) separator `sep`,
returning the part before it and the part after it, or `none` when `sep`
does not occur.  Used to locate the `://` of a URL. -/
def splitFirst (sep : List Char) : List Char → Option (List Char × List Char)
  | [] => none
  | c :: rest =>
    if List.isPrefixOf sep (c :: rest) then some ([], (c :: rest).drop sep.length)
    else
      match splitFirst sep rest with
      | none => none
      | some (a, b) => some (c :: a, b)

/-- Model of `String.prototype.startsWith` on Lean strings. -/
def strStartsWith (s p : String) : Bool := List.isPrefixOf p.data s.data

/-- Model of `String.prototype.slice(n)` on Lean strings. -/
def strDrop (s : String) (n : Nat) : String := String.mk (s.data.drop n)

/-! ## Model of the WHATWG URL parser (`new URL`)

`urlMatchesPattern` only reads `url.hostname` (lowercased by the parser)
and `url.pathname`, and relies on the constructor throwing on malformed
input.  The model parses `scheme://[userinfo@]host[:port][/path][?…][#…]`
and returns `none` (the embedded analogue of the exception) when the input
has no `scheme://` part or an empty host.  IPv6 hosts, percent-decoding
and punycode are outside the model. -/

def isAlphaC (c : Char) : Bool :=
  ('a' ≤ c && c ≤ 'z') || ('A' ≤ c && c ≤ 'Z')

def isSchemeTailC (c : Char) : Bool :=
  isAlphaC c || ('0' ≤ c && c ≤ '9') || c == '+' || c == '-' || c == '.'

/-- Parse a URL into `(hostname, pathname)`; `none` models the `TypeError`
thrown by `new URL` on malformed input. -/
def parseUrl (l : List Char) : Option (List Char × List Char) :=
  match splitFirst "://".data l with
  | none => none
  | some (scheme, rest) =>
    match scheme with
    | [] => none
    | c :: cs =>
      if isAlphaC c && cs.all isSchemeTailC then
        let auth := rest.takeWhile (fun d => !(d == '/' || d == '?' || d == '#'))
        let tail0 := rest.drop auth.length
        let hostPort := (splitChar '@' auth).getLastD []
        let host := hostPort.takeWhile (fun d => !(d == ':'))
        if host == [] then none
        else
          let path :=
            match tail0 with
            | '/' :: _ => tail0.takeWhile (fun d => !(d == '?' || d == '#'))
            | _ => ['/']
          some (lowerL host, path)
      else none

/-! ## Pattern matching (`src/lib/storage.ts`) -/

/-- Shared pattern normalization of `urlMatchesPattern` and
`patternToDnrFilter`: `pattern.toLowerCase().trim()
.replace(/^https?:\/\//, "").replace(/^www\./, "")`. -/
def normalizePattern (pattern : String) : List Char :=
  let l := trimL (lowerL pattern.data)
  let l := if List.isPrefixOf "https://".data l then l.drop 8
           else if List.isPrefixOf "http://".data l then l.drop 7
           else l
  if List.isPrefixOf "www.".data l then l.drop 4 else l

/-- Model of `hostname.replace(/^www\./, "")`. -/
def stripWwwL (l : List Char) : List Char :=
  if List.isPrefixOf "www.".data l then l.drop 4 else l

/-- Model of `patternPath.replace(/\/$/, "")` (drop one trailing slash). -/
def stripTrailingSlash (l : List Char) : List Char :=
  if l.getLast? == some '/' then l.dropLast else l

/-- Embedding of `urlMatchesPattern` (`src/lib/storage.ts`, lines 97-144). -/
def urlMatchesPattern (url pattern : String) : Bool :=
  match parseUrl url.data with
  | none => false
  | some (hostname0, pathname0) =>
    let hostname := lowerL hostname0
    let pathname := lowerL pathname0
    let np := normalizePattern pattern
    if np.contains '/' then
      let parts := splitChar '/' np
      let patternHost := parts.headD []
      let patternPath := '/' :: joinChar '/' parts.tail
      let hostMatches :=
        if List.isPrefixOf "*.".data patternHost then
          let domain := patternHost.drop 2
          hostname == domain || endsWithL hostname ('.' :: domain)
        else
          hostname == patternHost ||
          hostname == ("www.".data ++ patternHost) ||
          stripWwwL hostname == patternHost
      if !hostMatches then false
      else
        List.isPrefixOf patternPath pathname ||
        pathname == stripTrailingSlash patternPath
    else if List.isPrefixOf "*.".data np then
      let domain := np.drop 2
      hostname == domain || endsWithL hostname ('.' :: domain)
    else
      hostname == np ||
      hostname == ("www.".data ++ np) ||
      stripWwwL hostname == np

/-! ## Data model (`src/lib/storage.ts`) -/

structure PatternRule where
  pattern : String
  allow : Bool
deriving DecidableEq

/-- Embedding of `BlockedSite`.  The challenge-related fields
(`unlockMethod`, `challengeSettings`) are UI configuration never read by
the matching or enforcement code and are omitted. -/
structure BlockedSite where
  id : String
  name : String
  rules : List PatternRule
  autoRelockAfter : Option Nat
  enabled : Bool
  createdAt : Nat
deriving DecidableEq

/-- The `for (const rule of site.rules)` loop body of `urlMatchesSiteRules`,
with the `isBlocked` accumulator made explicit. -/
def matchRulesLoop (url : String) : List PatternRule → Bool → Bool
  | [], isBlocked => isBlocked
  | r :: rs, isBlocked =>
    if urlMatchesPattern url r.pattern then
      if r.allow then false else matchRulesLoop url rs true
    else matchRulesLoop url rs isBlocked

/-- Embedding of `urlMatchesSiteRules` (`src/lib/storage.ts`, lines 146-163). -/
def urlMatchesSiteRules (url : String) (site : BlockedSite) : Bool :=
  if !site.enabled then false
  else matchRulesLoop url site.rules false

/-! ## Rule-table backend (`src/lib/blocker/dnr.ts`)

`RULE_ID_BASE = 1000` and `MAX_RULES_PER_SITE = 100` are the constants of
`dnr.ts` / `consts.ts`. -/

def ruleIdBase : Nat := 1000

def maxRulesPerSite : Nat := 100

/-- Embedding of `patternToDnrFilter` (`dnr.ts`, lines 31-48). -/
def patternToDnrFilter (pattern : String) : String :=
  let normalized := normalizePattern pattern
  if List.isPrefixOf "*.".data normalized then
    String.mk ('|' :: '|' :: normalized.drop 2)
  else
    String.mk ('|' :: '|' :: normalized)

/-- Embedding of `getRuleId` (`dnr.ts`, lines 53-55). -/
def getRuleId (siteIndex patternIndex : Nat) : Nat :=
  ruleIdBase + siteIndex * maxRulesPerSite + patternIndex

/-- One step of `pattern.replace(/[.+?^${}()|[\]\\]/g, "\\$&").replace(/\*/g, ".*")`:
regex metacharacters are escaped, then `*` becomes `.*` (the escape pass
never produces a `*`, so the combined per-character translation is exact). -/
def escRegexChar (c : Char) : List Char :=
  if c == '.' || c == '+' || c == '?' || c == '^' || c == '$' || c == '\x7b' ||
     c == '\x7d' || c == '(' || c == ')' || c == '|' || c == '[' || c == ']' ||
     c == '\\' then ['\\', c]
  else if c == '*' then ['.', '*']
  else [c]

/-- Embedding of `urlFilterToRegex` (`dnr.ts`, lines 94-99): strip a leading
`||`, escape, and wrap as an anchored expression. -/
def urlFilterToRegex (urlFilter : String) : String :=
  let p0 := if List.isPrefixOf "||".data urlFilter.data
            then urlFilter.data.drop 2 else urlFilter.data
  let p := p0.foldr (fun c acc => escRegexChar c ++ acc) []
  String.mk ("^(https?://(www\\.)?".data ++ p ++ ".*)$".data)

/-- Wildcard matching: does some prefix of `s` match the character sequence
`p`, where `*` matches any substring and every other character is literal?
This is exactly the language of `P.*` for the escaped bodies produced by
`urlFilterToRegex` (everything escaped except `*`, which becomes `.*`). -/
def wildMatch : List Char → List Char → Bool
  | [], _ => true
  | c :: p, s =>
    if c == '*' then (List.range (s.length + 1)).any (fun k => wildMatch p (s.drop k))
    else
      match s with
      | [] => false
      | d :: rest => c == d && wildMatch p rest

/-- Model of the platform regex engine applied to the output of
`urlFilterToRegex urlFilter`: the generated expression is
`^(https?://(www\.)?CORE.*)$` where `CORE` is the filter body after the
leading `||` with every character literal except `*` (which matches any
substring).  A whole-string match of that anchored expression is exactly:
pick a scheme (`http://` or `https://`) and an optional `www.`, require
them as a prefix of the URL, then require a prefix of the remainder to
match `CORE`, the trailing `.*` absorbing the rest.  DNR regex filters
match case-insensitively (the rule sets no `isUrlFilterCaseSensitive`),
modelled by lowercasing both sides. -/
def regexAccepts (urlFilter url : String) : Bool :=
  let core := lowerL (if List.isPrefixOf "||".data urlFilter.data
                      then urlFilter.data.drop 2 else urlFilter.data)
  let u := lowerL url.data
  ["http://".data, "https://".data].any (fun sch =>
    [([] : List Char), "www.".data].any (fun w =>
      List.isPrefixOf (sch ++ w) u && wildMatch core (u.drop (sch ++ w).length)))

/-- A compiled DNR dynamic rule.  The action is always `block` and the
condition always carries `resourceTypes: ["main_frame"]` in the source, so
only the varying fields are kept. -/
structure DnrRule where
  id : Nat
  priority : Nat
  regexFilter : String
deriving DecidableEq

/-- Model of `Array.prototype.forEach` index bookkeeping:
`enumFromN n l` pairs each element with its index starting at `n`. -/
def enumFromN (n : Nat) : List α → List (Nat × α)
  | [] => []
  | a :: as => (n, a) :: enumFromN (n + 1) as

/-- Embedding of `createSiteRules` (`dnr.ts`, lines 62-89). -/
def createSiteRules (site : BlockedSite) (siteIndex : Nat) : List DnrRule :=
  if !site.enabled then []
  else
    (enumFromN 0 (site.rules.filter (fun r => !r.allow))).map (fun p =>
      { id := getRuleId siteIndex p.1,
        priority := 1,
        regexFilter := urlFilterToRegex (patternToDnrFilter p.2.pattern) })

/-! ## System state

One record holding every piece of browser state the `dnr.ts` operations
touch: `storage.local` blocked sites, `storage.session` unlock entries,
the alarms API, the dynamic DNR rule set, the open tabs and the clock
(`Date.now()`). -/

structure UnlockState where
  siteId : String
  expiresAt : Nat
deriving DecidableEq

structure Tab where
  id : Nat
  url : String
deriving DecidableEq

structure SysState where
  sites : List BlockedSite
  session : List (String × UnlockState)
  alarms : List (String × Nat)
  dnrRules : List DnrRule
  tabs : List Tab
  now : Nat
deriving DecidableEq

/-- Keyed lookup in an association list (model of
`browser.storage.session.get(key)` / reading one alarm). -/
def assocGet (l : List (String × α)) (key : String) : Option α :=
  (l.find? (fun kv => kv.1 == key)).map (fun kv => kv.2)

/-- Keyed removal (model of `browser.storage.session.remove` and
`browser.alarms.clear`). -/
def assocRemove (l : List (String × α)) (key : String) : List (String × α) :=
  l.filter (fun kv => !(kv.1 == key))

/-- Keyed update (model of `browser.storage.session.set` and of
`browser.alarms.create`, both of which replace the entry with that key). -/
def assocSet (l : List (String × α)) (key : String) (v : α) : List (String × α) :=
  assocRemove l key ++ [(key, v)]

/-- The session scan of `getUnlockedSiteIds` (`dnr.ts`, lines 133-148) as a
function of the session snapshot and `Date.now()`: ids of the unlock
entries whose `expiresAt` is still in the future. -/
def unlockedIdsOf (session : List (String × UnlockState)) (now : Nat) : List String :=
  (session.filter (fun kv =>
    strStartsWith kv.1 "unlock_" && decide (now < kv.2.expiresAt))).map
    (fun kv => kv.2.siteId)

/-- Embedding of `getUnlockedSiteIds`. -/
def getUnlockedSiteIds (st : SysState) : List String :=
  unlockedIdsOf st.session st.now

/-- The rule list built by `syncDnrRules` (`dnr.ts`, lines 104-128):
enabled, currently-locked sites contribute `createSiteRules` at their
absolute index in the sites list. -/
def buildAllRules (sites : List BlockedSite) (unlockedIds : List String) : List DnrRule :=
  ((enumFromN 0 sites).map (fun p =>
    if p.2.enabled && !(unlockedIds.contains p.2.id)
    then createSiteRules p.2 p.1 else [])).flatten

/-- Embedding of `syncDnrRules`: `updateDynamicRules` removes every
existing rule id and adds the freshly built rules, i.e. it replaces the
dynamic rule set. -/
def syncDnrRules (st : SysState) : SysState :=
  { st with dnrRules := buildAllRules st.sites (getUnlockedSiteIds st) }

/-- Embedding of `grantAccess` (`dnr.ts`, lines 154-182).  Durations are in
minutes, default 60 when `null`; the relock alarm is created under the
name `relock_<siteId>`, replacing any previous alarm with that name. -/
def grantAccess (st : SysState) (siteId : String) (durationMinutes : Option Nat) :
    SysState × Nat :=
  let durationMs := (durationMinutes.getD 60) * 60 * 1000
  let expiresAt := st.now + durationMs
  let st1 := { st with session := assocSet st.session ("unlock_" ++ siteId) ⟨siteId, expiresAt⟩ }
  let st2 := syncDnrRules st1
  let st3 := { st2 with alarms := assocSet st2.alarms ("relock_" ++ siteId) expiresAt }
  (st3, expiresAt)

/-- Embedding of `findTabsOnBlockedSite` (`dnr.ts`, lines 211-231).
`!tab.id || !tab.url` skips falsy fields (id `0`, empty url). -/
def findTabsOnBlockedSite (st : SysState) (siteId : String) : List Nat :=
  match st.sites.find? (fun s => s.id == siteId) with
  | none => []
  | some site =>
    (st.tabs.filter (fun t =>
      !(t.id == 0) && !(t.url == "") &&
      !(strStartsWith t.url "chrome-extension://") &&
      !(strStartsWith t.url "moz-extension://") &&
      urlMatchesSiteRules t.url site)).map (fun t => t.id)

/-- Embedding of `revokeAccess` (`dnr.ts`, lines 188-206). -/
def revokeAccess (st : SysState) (siteId : String) : SysState × List Nat :=
  let st1 := { st with session := assocRemove st.session ("unlock_" ++ siteId) }
  let st2 := { st1 with alarms := assocRemove st1.alarms ("relock_" ++ siteId) }
  let st3 := syncDnrRules st2
  (st3, findTabsOnBlockedSite st3 siteId)

/-- Embedding of `isSiteUnlocked` (`dnr.ts`, lines 236-248): lazily removes
a found-but-expired record. -/
def isSiteUnlocked (st : SysState) (siteId : String) : SysState × Bool :=
  match assocGet st.session ("unlock_" ++ siteId) with
  | none => (st, false)
  | some state =>
    if state.expiresAt ≤ st.now then
      ({ st with session := assocRemove st.session ("unlock_" ++ siteId) }, false)
    else (st, true)

/-- Embedding of `handleRelockAlarm` (`dnr.ts`, lines 271-282). -/
def handleRelockAlarm (st : SysState) (alarmName : String) :
    SysState × Option (String × List Nat) :=
  if strStartsWith alarmName "relock_" then
    let siteId := strDrop alarmName 7
    let r := revokeAccess st siteId
    (r.1, some (siteId, r.2))
  else (st, none)

/-- Embedding of the `UNLOCK_SITE` message handler of the background
script: it calls `grantAccess`, broadcasts `SITE_UNLOCKED` (best-effort,
no state effect in the model) and responds `{success: true, expiresAt}`. -/
def handleUnlockSite (st : SysState) (siteId : String) (durationMinutes : Option Nat) :
    SysState × (Bool × Nat) :=
  let r := grantAccess st siteId durationMinutes
  (r.1, (true, r.2))

/-- Convenience: the state with the clock advanced to `t` (used to phrase
"after simulated time advance"). -/
def setNow (st : SysState) (t : Nat) : SysState := { st with now := t }

/-! ## Concrete sample inputs used by witnesses and counterexamples -/

def emptyState : SysState :=
  { sites := [], session := [], alarms := [], dnrRules := [], tabs := [], now := 0 }

def exampleComSite : BlockedSite :=
  { id := "a", name := "Example",
    rules := [{ pattern := "example.com", allow := false }],
    autoRelockAfter := none, enabled := true, createdAt := 0 }

def allowDemoSite : BlockedSite :=
  { id := "demo", name := "demo",
    rules := [{ pattern := "example.com", allow := false },
              { pattern := "example.com/ok", allow := true }],
    autoRelockAfter := none, enabled := true, createdAt := 0 }

def emptyRulesSite : BlockedSite :=
  { id := "empty", name := "empty", rules := [],
    autoRelockAfter := none, enabled := true, createdAt := 0 }

def twoDenySite : BlockedSite :=
  { id := "two", name := "two",
    rules := [{ pattern := "a.com", allow := false },
              { pattern := "b.com", allow := false }],
    autoRelockAfter := none, enabled := true, createdAt := 0 }

def overflowSite : BlockedSite :=
  { id := "a", name := "many",
    rules := List.replicate 101 { pattern := "x.com", allow := false },
    autoRelockAfter := none, enabled := true, createdAt := 0 }

/-- A state in which site `a` was re-granted (current record expires at
200) while a hypothetical stale timer, armed for the superseded expiry
100, is about to fire at `now = 100`. -/
def staleRaceState : SysState :=
  { sites := [exampleComSite],
    session := [("unlock_a", { siteId := "a", expiresAt := 200 })],
    alarms := [("relock_a", 200)],
    dnrRules := [], tabs := [], now := 100 }

/-- A state with an unlocked site `a` and one tab still open on it. -/
def revokeDemoState : SysState :=
  { sites := [exampleComSite],
    session := [("unlock_a", { siteId := "a", expiresAt := 500 })],
    alarms := [("relock_a", 500)],
    dnrRules := [], tabs := [{ id := 1, url := "https://example.com/" }], now := 0 }

/-! ## Helper lemmas -/

theorem find?_assocRemove (l : List (String × α)) (k : String) :
    (assocRemove l k).find? (fun kv => kv.1 == k) = none := by
  unfold assocRemove
  induction l with
  | nil => rfl
  | cons kv t ih =>
    cases h : (kv.1 == k) with
    | true => simp [List.filter_cons, h, ih]
    | false => simp [List.filter_cons, h, List.find?, ih]

theorem assocGet_remove (l : List (String × α)) (k : String) :
    assocGet (assocRemove l k) k = none := by
  unfold assocGet
  rw [find?_assocRemove]
  rfl

theorem find?_append_of_none (p : α → Bool) (l1 l2 : List α)
    (h : l1.find? p = none) : (l1 ++ l2).find? p = l2.find? p := by
  induction l1 with
  | nil => rfl
  | cons a t ih =>
    cases hpa : p a with
    | true => simp [List.find?, hpa] at h
    | false =>
      simp only [List.find?, hpa] at h
      simpa [List.find?, hpa] using ih h

theorem assocGet_set (l : List (String × α)) (k : String) (v : α) :
    assocGet (assocSet l k v) k = some v := by
  unfold assocGet assocSet
  rw [find?_append_of_none _ _ _ (find?_assocRemove l k)]
  simp [List.find?]

theorem assocRemove_idem (l : List (String × α)) (k : String) :
    assocRemove (assocRemove l k) k = assocRemove l k := by
  unfold assocRemove
  induction l with
  | nil => rfl
  | cons kv t ih =>
    cases h : (kv.1 == k) with
    | true => simp [List.filter_cons, h, ih]
    | false => simp [List.filter_cons, h, ih]

theorem filter_assocRemove_nil (l : List (String × α)) (k : String) :
    (assocRemove l k).filter (fun kv => kv.1 == k) = [] := by
  unfold assocRemove
  induction l with
  | nil => rfl
  | cons kv t ih =>
    cases h : (kv.1 == k) with
    | true => simp [List.filter_cons, h, ih]
    | false => simp [List.filter_cons, h, ih]

theorem filter_assocSet (l : List (String × α)) (k : String) (v : α) :
    (assocSet l k v).filter (fun kv => kv.1 == k) = [(k, v)] := by
  unfold assocSet
  rw [List.filter_append, filter_assocRemove_nil]
  simp [List.filter_cons]

theorem enumFromN_length (n : Nat) (l : List α) :
    (enumFromN n l).length = l.length := by
  induction l generalizing n with
  | nil => rfl
  | cons a t ih => simp [enumFromN, ih]

theorem enumFromN_get? (n : Nat) (l : List α) (i : Nat) :
    (enumFromN n l).get? i = (l.get? i).map (fun a => (n + i, a)) := by
  induction l generalizing n i with
  | nil => simp [enumFromN]
  | cons a t ih =>
    cases i with
    | zero => simp [enumFromN]
    | succ j =>
      have harith : n + 1 + j = n + (j + 1) := by omega
      simpa [enumFromN, harith] using ih (n + 1) j

theorem get?_map_eq (f : α → β) (l : List α) (i : Nat) :
    (l.map f).get? i = (l.get? i).map f := by
  induction l generalizing i with
  | nil => simp
  | cons a t ih =>
    cases i with
    | zero => rfl
    | succ j => exact ih j

theorem wildMatch_eq_isPrefixOf (p : List Char) (h : '*' ∉ p) (s : List Char) :
    wildMatch p s = List.isPrefixOf p s := by
  induction p generalizing s with
  | nil => cases s <;> rfl
  | cons c p ih =>
    have hc : (c == '*') = false := by
      simp only [beq_eq_false_iff_ne, ne_eq]
      intro hceq
      exact h (hceq ▸ List.mem_cons_self c p)
    have hp : '*' ∉ p := fun hm => h (List.mem_cons_of_mem _ hm)
    cases s with
    | nil => simp [wildMatch, hc, List.isPrefixOf]
    | cons d s => simp [wildMatch, hc, List.isPrefixOf, ih hp]

theorem isPrefixOf_append_eq (a b u : List Char) :
    List.isPrefixOf (a ++ b) u =
      (List.isPrefixOf a u && List.isPrefixOf b (u.drop a.length)) := by
  induction a generalizing u with
  | nil => simp [List.isPrefixOf]
  | cons c a ih =>
    cases u with
    | nil => simp [List.isPrefixOf]
    | cons d u => simp [List.isPrefixOf, ih, Bool.and_assoc]

theorem isSiteUnlocked_found_active (st : SysState) (siteId : String) (u : UnlockState)
    (hu : assocGet st.session ("unlock_" ++ siteId) = some u)
    (h : ¬ (u.expiresAt ≤ st.now)) :
    isSiteUnlocked st siteId = (st, true) := by
  unfold isSiteUnlocked
  simp only [hu]
  rw [if_neg h]

theorem isSiteUnlocked_found_expired (st : SysState) (siteId : String) (u : UnlockState)
    (hu : assocGet st.session ("unlock_" ++ siteId) = some u)
    (h : u.expiresAt ≤ st.now) :
    isSiteUnlocked st siteId =
      ({ st with session := assocRemove st.session ("unlock_" ++ siteId) }, false) := by
  unfold isSiteUnlocked
  simp only [hu]
  rw [if_pos h]

theorem matchRulesLoop_allow_false (url : String) (rules : List PatternRule) :
    ∀ acc : Bool,
      (∃ r ∈ rules, r.allow = true ∧ urlMatchesPattern url r.pattern = true) →
      matchRulesLoop url rules acc = false := by
  induction rules with
  | nil =>
    intro acc h
    obtain ⟨r, hr, _⟩ := h
    cases hr
  | cons r0 rs ih =>
    intro acc h
    obtain ⟨r, hr, hallow, hmatch⟩ := h
    rcases List.mem_cons.mp hr with rfl | hmem
    · simp [matchRulesLoop, hmatch, hallow]
    · cases hm : urlMatchesPattern url r0.pattern with
      | true =>
        cases ha : r0.allow with
        | true => simp [matchRulesLoop, hm, ha]
        | false =>
          simpa [matchRulesLoop, hm, ha] using ih true ⟨r, hmem, hallow, hmatch⟩
      | false =>
        simpa [matchRulesLoop, hm] using ih acc ⟨r, hmem, hallow, hmatch⟩

/-! ## Claim theorems -/

/-- C1: for every enabled site and every URL, if any rule with
`allow = true` matches the URL, `urlMatchesSiteRules` returns `false`,
whatever deny rules also match and wherever the allow rule sits in the
list. -/
theorem allowRuleOverridesDeny (url : String) (site : BlockedSite)
    (hen : site.enabled = true)
    (h : ∃ r ∈ site.rules, r.allow = true ∧ urlMatchesPattern url r.pattern = true) :
    urlMatchesSiteRules url site = false := by
  unfold urlMatchesSiteRules
  rw [hen]
  simpa using matchRulesLoop_allow_false url site.rules false h

/-- C1 witness: a site with a deny rule before an allow rule, at a URL
both rules match. -/
theorem allowRuleOverridesDeny_witness :
    allowDemoSite.enabled = true ∧
    (∃ r ∈ allowDemoSite.rules,
      r.allow = true ∧ urlMatchesPattern "https://example.com/ok" r.pattern = true) ∧
    urlMatchesSiteRules "https://example.com/ok" allowDemoSite = false :=
  ⟨rfl,
   ⟨{ pattern := "example.com/ok", allow := true }, by decide, rfl, by decide⟩,
   allowRuleOverridesDeny "https://example.com/ok" allowDemoSite rfl
     ⟨{ pattern := "example.com/ok", allow := true }, by decide, rfl, by decide⟩⟩

/-- C9: an enabled site whose rule list is empty blocks no URL. -/
theorem emptyRulesBlockNothing (url : String) (site : BlockedSite)
    (hen : site.enabled = true) (hrules : site.rules = []) :
    urlMatchesSiteRules url site = false := by
  unfold urlMatchesSiteRules
  rw [hen, hrules]
  rfl

/-- C9 witness. -/
theorem emptyRulesBlockNothing_witness :
    emptyRulesSite.enabled = true ∧ emptyRulesSite.rules = [] ∧
    urlMatchesSiteRules "https://example.com/" emptyRulesSite = false :=
  ⟨rfl, rfl, emptyRulesBlockNothing "https://example.com/" emptyRulesSite rfl rfl⟩

/-- C7: whenever the URL parser rejects the input, `urlMatchesPattern`
returns `false` for every pattern — the parse failure is absorbed locally
(the `try/catch` of the source), never propagated. -/
theorem malformedUrlNeverMatches (url pattern : String)
    (h : parseUrl url.data = none) :
    urlMatchesPattern url pattern = false := by
  unfold urlMatchesPattern
  rw [h]

/-- C7 witness: a schemeless string is rejected by the parser and matches
nothing. -/
theorem malformedUrlNeverMatches_witness :
    parseUrl "notaurl".data = none ∧
    urlMatchesPattern "notaurl" "example.com" = false :=
  ⟨by decide, malformedUrlNeverMatches "notaurl" "example.com" (by decide)⟩

/-- C10: an alarm whose name does not start with `relock_` makes
`handleRelockAlarm` return `null` and leave the whole state untouched. -/
theorem foreignAlarmNoOp (st : SysState) (name : String)
    (h : strStartsWith name "relock_" = false) :
    handleRelockAlarm st name = (st, none) := by
  unfold handleRelockAlarm
  rw [h]
  rfl

/-- C10 witness. -/
theorem foreignAlarmNoOp_witness :
    strStartsWith "cleanup_x" "relock_" = false ∧
    handleRelockAlarm emptyState "cleanup_x" = (emptyState, none) :=
  ⟨by decide, foreignAlarmNoOp emptyState "cleanup_x" (by decide)⟩

/-- C8: `grantAccess` validates nothing: for every `siteId` — in
particular one matching no stored site, since the state is universally
quantified — the `UNLOCK_SITE` handler responds `success = true` with the
computed expiry, the unlock record is written, and the relock alarm is
armed. -/
theorem unlockSiteAlwaysSucceeds (st : SysState) (siteId : String) (d : Option Nat) :
    (handleUnlockSite st siteId d).2.1 = true ∧
    (handleUnlockSite st siteId d).2.2 = st.now + (d.getD 60) * 60 * 1000 ∧
    assocGet (handleUnlockSite st siteId d).1.session ("unlock_" ++ siteId) =
      some { siteId := siteId, expiresAt := st.now + (d.getD 60) * 60 * 1000 } ∧
    assocGet (handleUnlockSite st siteId d).1.alarms ("relock_" ++ siteId) =
      some (st.now + (d.getD 60) * 60 * 1000) := by
  refine ⟨rfl, rfl, ?_, ?_⟩
  · exact assocGet_set st.session ("unlock_" ++ siteId) _
  · exact assocGet_set st.alarms ("relock_" ++ siteId) _

/-- C5: granting a positive duration `d` makes the site immediately
unlocked with expiry `now + d` minutes; once the clock passes the expiry,
the read itself reports locked and deletes the record (lazy cleanup). -/
theorem grantUnlockRoundTrip (st : SysState) (siteId : String) (d : Nat)
    (hd : 0 < d) (t : Nat) (ht : (grantAccess st siteId (some d)).2 < t) :
    (grantAccess st siteId (some d)).2 = st.now + d * 60000 ∧
    (isSiteUnlocked (grantAccess st siteId (some d)).1 siteId).2 = true ∧
    (isSiteUnlocked (setNow (grantAccess st siteId (some d)).1 t) siteId).2 = false ∧
    assocGet (isSiteUnlocked (setNow (grantAccess st siteId (some d)).1 t) siteId).1.session
      ("unlock_" ++ siteId) = none := by
  have hget : assocGet (grantAccess st siteId (some d)).1.session ("unlock_" ++ siteId) =
      some { siteId := siteId, expiresAt := st.now + d * 60 * 1000 } :=
    assocGet_set st.session ("unlock_" ++ siteId) _
  have hget2 : assocGet (setNow (grantAccess st siteId (some d)).1 t).session
      ("unlock_" ++ siteId) =
      some { siteId := siteId, expiresAt := st.now + d * 60 * 1000 } := hget
  have hactive := isSiteUnlocked_found_active (grantAccess st siteId (some d)).1 siteId _
    hget (by show ¬ (st.now + d * 60 * 1000 ≤ st.now); omega)
  have hexpired := isSiteUnlocked_found_expired (setNow (grantAccess st siteId (some d)).1 t)
    siteId _ hget2
    (by
      show st.now + d * 60 * 1000 ≤ t
      have ht2 : st.now + d * 60 * 1000 < t := ht
      omega)
  refine ⟨?_, ?_, ?_, ?_⟩
  · show st.now + d * 60 * 1000 = st.now + d * 60000
    omega
  · rw [hactive]
  · rw [hexpired]
  · rw [hexpired]
    exact assocGet_remove _ _

/-- C5 witness: empty state, 5-minute grant, clock moved one past the
expiry. -/
theorem grantUnlockRoundTrip_witness :
    0 < 5 ∧ (grantAccess emptyState "a" (some 5)).2 < 300001 ∧
    ((grantAccess emptyState "a" (some 5)).2 = emptyState.now + 5 * 60000 ∧
     (isSiteUnlocked (grantAccess emptyState "a" (some 5)).1 "a").2 = true ∧
     (isSiteUnlocked (setNow (grantAccess emptyState "a" (some 5)).1 300001) "a").2 = false ∧
     assocGet (isSiteUnlocked (setNow (grantAccess emptyState "a" (some 5)).1 300001) "a").1.session
       ("unlock_" ++ "a") = none) :=
  ⟨by decide, by decide,
   grantUnlockRoundTrip emptyState "a" 5 (by decide) 300001 (by decide)⟩

/-- C4 counterexample: with one tab still open on the blocked site, the
second consecutive `revokeAccess` returns the same one-element tab list,
not the empty list the claim announces. -/
theorem secondRevokeTabList_counterexample :
    (revokeAccess (revokeAccess revokeDemoState "a").1 "a").2 = [1] ∧
    (revokeAccess (revokeAccess revokeDemoState "a").1 "a").2 ≠ [] := by
  exact ⟨by decide, by decide⟩

/-- C4 (amended): the first `revokeAccess` deletes the unlock record and
clears the relock alarm, and a second consecutive call performs no
further state change and returns the same tab list as the first (which is
empty exactly when no open tab is still on the site). -/
theorem revokeTwiceSafe (st : SysState) (siteId : String) :
    assocGet (revokeAccess st siteId).1.session ("unlock_" ++ siteId) = none ∧
    assocGet (revokeAccess st siteId).1.alarms ("relock_" ++ siteId) = none ∧
    revokeAccess (revokeAccess st siteId).1 siteId = revokeAccess st siteId := by
  refine ⟨assocGet_remove st.session _, assocGet_remove st.alarms _, ?_⟩
  have hstate : (revokeAccess (revokeAccess st siteId).1 siteId).1 =
      (revokeAccess st siteId).1 := by
    show ({ st with
        session := assocRemove (assocRemove st.session ("unlock_" ++ siteId))
          ("unlock_" ++ siteId),
        alarms := assocRemove (assocRemove st.alarms ("relock_" ++ siteId))
          ("relock_" ++ siteId),
        dnrRules := buildAllRules st.sites (unlockedIdsOf
          (assocRemove (assocRemove st.session ("unlock_" ++ siteId))
            ("unlock_" ++ siteId)) st.now) } : SysState) =
      { st with
        session := assocRemove st.session ("unlock_" ++ siteId),
        alarms := assocRemove st.alarms ("relock_" ++ siteId),
        dnrRules := buildAllRules st.sites (unlockedIdsOf
          (assocRemove st.session ("unlock_" ++ siteId)) st.now) }
    rw [assocRemove_idem st.session, assocRemove_idem st.alarms]
  have htabs : (revokeAccess (revokeAccess st siteId).1 siteId).2 =
      (revokeAccess st siteId).2 := by
    show findTabsOnBlockedSite (revokeAccess (revokeAccess st siteId).1 siteId).1 siteId =
      findTabsOnBlockedSite (revokeAccess st siteId).1 siteId
    rw [hstate]
  exact Prod.ext_iff.mpr ⟨hstate, htabs⟩

/-- C2 counterexample: in a state whose current record for site `a`
expires at 200 (a fresh re-grant) while a stale timer armed for 100 fires
at `now = 100`, `handleRelockAlarm` is not a no-op: it performs the
revoke and deletes the still-valid record. -/
theorem staleRelockFire_counterexample :
    (handleRelockAlarm staleRaceState "relock_a").2 = some ("a", []) ∧
    assocGet (handleRelockAlarm staleRaceState "relock_a").1.session "unlock_a" = none := by
  exact ⟨by decide, by decide⟩

/-- C2 (amended): `handleRelockAlarm` performs no expiry-mismatch check
and revokes unconditionally; the stale-timer race is instead prevented
when the timer is armed: `grantAccess` creates the alarm under the fixed
name `relock_<siteId>`, replacing any previous alarm for that site, so
after a superseding grant the only relock timer for the site is armed at
the new expiry. -/
theorem regrantReplacesRelockTimer (st : SysState) (siteId : String) (d1 d2 : Option Nat) :
    ((grantAccess (grantAccess st siteId d1).1 siteId d2).1.alarms.filter
        (fun kv => kv.1 == "relock_" ++ siteId)) =
      [("relock_" ++ siteId, (grantAccess (grantAccess st siteId d1).1 siteId d2).2)] ∧
    (grantAccess (grantAccess st siteId d1).1 siteId d2).2 =
      st.now + (d2.getD 60) * 60 * 1000 := by
  exact ⟨filter_assocSet _ _ _, rfl⟩

/-- C6 counterexample: a site with 101 deny patterns produces 101 rules —
the pattern at index 100 is not dropped; its rule id 1100 equals
`getRuleId 1 0`, the first slot of the next site. -/
theorem overflowPatternNotDropped_counterexample :
    ((createSiteRules overflowSite 0).get? 100).map DnrRule.id = some 1100 ∧
    (createSiteRules overflowSite 0).length = 101 ∧
    getRuleId 1 0 = 1100 := by
  exact ⟨by decide, by decide, by decide⟩

/-- C6 (amended): for an enabled site, the compiled rule for the deny
pattern at index `i` has id `1000 + siteIndex * 100 + i`, for every
`i` below the number of deny patterns — no pattern is dropped, each deny
pattern contributes exactly one rule. -/
theorem ruleIdDeterministic (site : BlockedSite) (siteIndex : Nat)
    (hen : site.enabled = true) (i : Nat)
    (hi : i < (site.rules.filter (fun r => !r.allow)).length) :
    ((createSiteRules site siteIndex).get? i).map DnrRule.id =
      some (1000 + siteIndex * 100 + i) ∧
    (createSiteRules site siteIndex).length =
      (site.rules.filter (fun r => !r.allow)).length := by
  have hcsr : createSiteRules site siteIndex =
      (enumFromN 0 (site.rules.filter (fun r => !r.allow))).map (fun p =>
        { id := getRuleId siteIndex p.1, priority := 1,
          regexFilter := urlFilterToRegex (patternToDnrFilter p.2.pattern) }) := by
    unfold createSiteRules
    rw [hen]
    rfl
  constructor
  · rw [hcsr, get?_map_eq, enumFromN_get?, List.get?_eq_get hi]
    simp [getRuleId, ruleIdBase, maxRulesPerSite]
  · rw [hcsr]
    simp [enumFromN_length]

/-- C6 witness: second deny pattern of a two-deny site placed at site
index 3. -/
theorem ruleIdDeterministic_witness :
    twoDenySite.enabled = true ∧
    1 < (twoDenySite.rules.filter (fun r => !r.allow)).length ∧
    (((createSiteRules twoDenySite 3).get? 1).map DnrRule.id =
        some (1000 + 3 * 100 + 1) ∧
     (createSiteRules twoDenySite 3).length =
        (twoDenySite.rules.filter (fun r => !r.allow)).length) :=
  ⟨rfl, by decide, ruleIdDeterministic twoDenySite 3 rfl 1 (by decide)⟩

/-- C3 counterexample: the two enforcement backends disagree in both
directions — the live matcher blocks `old.reddit.com` under
`*.reddit.com` while the compiled regex does not, and the compiled regex
blocks `example.com.evil.org` under `example.com` while the live matcher
does not. -/
theorem backendsDisagree_counterexample :
    urlMatchesPattern "https://old.reddit.com/" "*.reddit.com" = true ∧
    regexAccepts (patternToDnrFilter "*.reddit.com") "https://old.reddit.com/" = false ∧
    urlMatchesPattern "https://example.com.evil.org/" "example.com" = false ∧
    regexAccepts (patternToDnrFilter "example.com") "https://example.com.evil.org/" = true := by
  exact ⟨by decide, by decide, by decide, by decide⟩

/-- C3 (amended): the rule-table side is not equivalent to the live
matcher; what the compiled expression actually implements, for any
wildcard-free filter core (every `patternToDnrFilter` output is
wildcard-free), is raw string-prefix matching: the URL matches iff its
lowercased text starts with `http://` or `https://`, then optionally
`www.`, then the core as a plain prefix — host boundaries are ignored. -/
theorem dnrRegexStringSemantics (core : List Char) (url : String)
    (h : '*' ∉ lowerL core) :
    regexAccepts (String.mk ('|' :: '|' :: core)) url =
      (List.isPrefixOf ("http://".data ++ lowerL core) (lowerL url.data) ||
       List.isPrefixOf ("http://www.".data ++ lowerL core) (lowerL url.data) ||
       List.isPrefixOf ("https://".data ++ lowerL core) (lowerL url.data) ||
       List.isPrefixOf ("https://www.".data ++ lowerL core) (lowerL url.data)) := by
  have hcond : List.isPrefixOf "||".data (String.mk ('|' :: '|' :: core)).data = true := by
    show List.isPrefixOf ['|', '|'] ('|' :: '|' :: core) = true
    simp [List.isPrefixOf]
  have hstrip : (if List.isPrefixOf "||".data (String.mk ('|' :: '|' :: core)).data
      then (String.mk ('|' :: '|' :: core)).data.drop 2
      else (String.mk ('|' :: '|' :: core)).data) = core := by
    rw [if_pos hcond]
    rfl
  unfold regexAccepts
  simp only [List.any_cons, List.any_nil, Bool.or_false]
  rw [hstrip]
  simp only [wildMatch_eq_isPrefixOf (lowerL core) h]
  simp only [← isPrefixOf_append_eq]
  rw [show ("http://".data : List Char) ++ [] = "http://".data from List.append_nil _,
      show ("https://".data : List Char) ++ [] = "https://".data from List.append_nil _,
      show "http://".data ++ "www.".data = "http://www.".data from rfl,
      show "https://".data ++ "www.".data = "https://www.".data from rfl]
  simp [Bool.or_assoc]

/-- C3 witness for the amended characterization, at the boundary-ignoring
input of the counterexample. -/
theorem dnrRegexStringSemantics_witness :
    ('*' ∉ lowerL "example.com".data) ∧
    (regexAccepts (String.mk ('|' :: '|' :: "example.com".data)) "https://example.com.evil.org/" =
      (List.isPrefixOf ("http://".data ++ lowerL "example.com".data)
        (lowerL "https://example.com.evil.org/".data) ||
       List.isPrefixOf ("http://www.".data ++ lowerL "example.com".data)
        (lowerL "https://example.com.evil.org/".data) ||
       List.isPrefixOf ("https://".data ++ lowerL "example.com".data)
        (lowerL "https://example.com.evil.org/".data) ||
       List.isPrefixOf ("https://www.".data ++ lowerL "example.com".data)
        (lowerL "https://example.com.evil.org/".data))) :=
  ⟨by decide,
   dnrRegexStringSemantics "example.com".data "https://example.com.evil.org/" (by decide)⟩
